import Mathlib

/-!
Verification development for the registration / settings front-end.

We give a shallow embedding of the logic of
`src/components/RegisterForm.tsx` (zod form schema, submit handler,
OAuth callback) and `src/pages/brand/Settings.tsx` (tag/category lists,
activity log, per-section save handlers), and prove the spec's claims
about them.

Conventions of the embedding:
* JavaScript strings are Lean `String`s; `s.length` stands for the JS
  string length (the inputs of interest are ASCII, where the two agree).
* The i18n lookup `t(key, default)` is embedded as the `default` text
  when one is given in the source and as the key itself otherwise; only
  the identity of each message matters to the claims.
* Asynchronous effects are made explicit: the registration submit
  handler is a list of effect events, and each settings save handler is
  a record holding the state after its synchronous part, the toasts it
  emits, whether a persistence call (the simulated `setTimeout` body)
  was scheduled, and the state and toasts after that call completes.
-/

namespace RegisterForm

/-! ## The zod email grammar

`z.string().email()` checks the string against zod's email pattern:
no leading dot, no two consecutive dots, a non-empty local part over
`[A-Z0-9_'+\-.]` not ending in a dot or apostrophe, an `@`, one or more
labels (alphanumeric head, alphanumeric-or-hyphen tail) each followed by
a dot, and a final all-letter top-level domain of length at least 2.
We implement it over character lists. -/

def isLocalChar (c : Char) : Bool :=
  c.isAlphanum || c == '_' || c == Char.ofNat 39 || c == '+' || c == '-' || c == '.'

def isLocalLast (c : Char) : Bool :=
  c.isAlphanum || c == '_' || c == '+' || c == '-'

def isLabelTail (c : Char) : Bool :=
  c.isAlphanum || c == '-'

def hasDoubleDot : List Char → Bool
  | c1 :: c2 :: rest => (c1 == '.' && c2 == '.') || hasDoubleDot (c2 :: rest)
  | _ => false

/-- Split a character list at every occurrence of `sep` (separators are
dropped; adjacent separators produce empty pieces). -/
def splitOnChar (sep : Char) : List Char → List (List Char)
  | [] => [[]]
  | c :: rest =>
    let r := splitOnChar sep rest
    if c == sep then [] :: r
    else
      match r with
      | [] => [[c]]
      | p :: ps => (c :: p) :: ps

def validLocal (l : List Char) : Bool :=
  !l.isEmpty && l.all isLocalChar &&
    (match l.getLast? with
     | some c => isLocalLast c
     | none => false)

def validLabel (l : List Char) : Bool :=
  match l with
  | [] => false
  | c :: rest => c.isAlphanum && rest.all isLabelTail

def validTld (l : List Char) : Bool :=
  decide (2 ≤ l.length) && l.all Char.isAlpha

def validDomain (d : List Char) : Bool :=
  let parts := splitOnChar '.' d
  decide (2 ≤ parts.length) && parts.dropLast.all validLabel &&
    (match parts.getLast? with
     | some tld => validTld tld
     | none => false)

def validEmail (s : String) : Bool :=
  let cs := s.toList
  (match cs with
   | '.' :: _ => false
   | _ => true) &&
  !hasDoubleDot cs &&
  (match splitOnChar '@' cs with
   | [localPart, domain] => validLocal localPart && validDomain domain
   | _ => false)

/-! ## The form schema and validation -/

/-- The value collected by the registration form (`FormValues`). The
role reaches the schema as a string and is checked against the zod
enumeration. -/
structure RegistrationInput where
  name : String
  email : String
  password : String
  confirmPassword : String
  role : String
deriving DecidableEq, Repr

def roleValues : List String := ["manufacturer", "brand", "retailer"]

/- The schema messages, as the default texts passed to `t`. -/
def nameMinMsg : String := "Name must be at least 2 characters"
def invalidEmailMsg : String := "Please enter a valid email address"
def passwordMinMsg : String := "Password must be at least 8 characters"
def roleRequiredMsg : String := "Please select a role"
def passwordsDoNotMatchMsg : String := "Passwords do not match"

/-- A zod issue: a message attached to the path of one field. -/
structure FieldError where
  path : String
  message : String
deriving DecidableEq, Repr

/-- The field-level issues of `formSchema`'s base object: each field is
checked by its own rule and all failing fields are reported, in the
shape's key order. -/
def fieldIssues (input : RegistrationInput) : List FieldError :=
  (if 2 ≤ input.name.length then [] else [⟨"name", nameMinMsg⟩]) ++
  (if validEmail input.email then [] else [⟨"email", invalidEmailMsg⟩]) ++
  (if 8 ≤ input.password.length then [] else [⟨"password", passwordMinMsg⟩]) ++
  (if 8 ≤ input.confirmPassword.length then [] else [⟨"confirmPassword", passwordMinMsg⟩]) ++
  (if roleValues.contains input.role then [] else [⟨"role", roleRequiredMsg⟩])

inductive ValidationResult where
  | ok (value : RegistrationInput)
  | error (fieldErrors : List FieldError)
deriving DecidableEq, Repr

def ValidationResult.isOk : ValidationResult → Bool
  | .ok _ => true
  | .error _ => false

def ValidationResult.errors : ValidationResult → List FieldError
  | .ok _ => []
  | .error es => es

/-- `formSchema` as a validator: the base object's field rules run
first; the `.refine` cross-field rule (`password === confirmPassword`,
path `confirmPassword`) runs only when the base object parses. -/
def validate (input : RegistrationInput) : ValidationResult :=
  match fieldIssues input with
  | [] =>
    if input.password = input.confirmPassword then .ok input
    else .error [⟨"confirmPassword", passwordsDoNotMatchMsg⟩]
  | es => .error es

/-! ## URL encoding

`encodeURIComponent` per the ECMAScript definition: characters in
`A-Z a-z 0-9 - _ . ! ~ * ' ( )` pass through unchanged; every other
character is replaced by the uppercase-hex percent-encoding of its
UTF-8 bytes. -/

def utf8Bytes (c : Char) : List Nat :=
  let n := c.toNat
  if n < 0x80 then [n]
  else if n < 0x800 then [0xC0 + n / 64, 0x80 + n % 64]
  else if n < 0x10000 then [0xE0 + n / 4096, 0x80 + (n / 64) % 64, 0x80 + n % 64]
  else [0xF0 + n / 262144, 0x80 + (n / 4096) % 64, 0x80 + (n / 64) % 64, 0x80 + n % 64]

def hexDigitChar (n : Nat) : Char :=
  if n < 10 then Char.ofNat (48 + n) else Char.ofNat (55 + n)

def percentEncode (b : Nat) : List Char :=
  ['%', hexDigitChar (b / 16), hexDigitChar (b % 16)]

def isURIUnreserved (c : Char) : Bool :=
  c.isAlphanum || c == '-' || c == '_' || c == '.' || c == '!' || c == '~' ||
    c == '*' || c == Char.ofNat 39 || c == '(' || c == ')'

def encodeURIComponent (s : String) : String :=
  String.mk (s.toList.flatMap fun c =>
    if isURIUnreserved c then [c] else (utf8Bytes c).flatMap percentEncode)

/-! ## The submit handler

`onSubmit` runs: `setIsLoading(true)`; `await register({...})`; on
success a success toast and `navigate("/verify-email?email=" +
encodeURIComponent(email))`; on rejection a destructive toast and no
navigation; `finally { setIsLoading(false) }`. We record its effects as
a list of events; whether the external `register` call resolves or
rejects is the environment's choice, passed as `registerSucceeds`. -/

/-- The payload `onSubmit` passes to `register`. -/
structure RegisterPayload where
  name : String
  email : String
  password : String
  status : String
  role : String
  companyName : String
deriving DecidableEq, Repr

def payloadOf (data : RegistrationInput) : RegisterPayload :=
  ⟨data.name, data.email, data.password, "online", data.role, "pending"⟩

def verificationSentTitle : String := "Verification email sent"
def registrationFailedTitle : String := "Registration failed"

inductive Event where
  | setLoading (b : Bool)
  | registerCall (payload : RegisterPayload)
  | toast (title : String) (destructive : Bool)
  | navigate (path : String)
deriving DecidableEq, Repr

def onSubmit (data : RegistrationInput) (registerSucceeds : Bool) : List Event :=
  [Event.setLoading true, Event.registerCall (payloadOf data)] ++
  (if registerSucceeds then
    [Event.toast verificationSentTitle false,
     Event.navigate ("/verify-email?email=" ++ encodeURIComponent data.email)]
   else
    [Event.toast registrationFailedTitle true]) ++
  [Event.setLoading false]

/-- `form.handleSubmit(onSubmit)`: react-hook-form runs the resolver
(our `validate`) on the current values and calls `onSubmit` only when
it succeeds; on failure it records the field errors and performs none
of `onSubmit`'s effects. -/
def handleSubmit (input : RegistrationInput) (registerSucceeds : Bool) : List Event :=
  match validate input with
  | .ok v => onSubmit v registerSucceeds
  | .error _ => []

/-- The register calls occurring in an event list. -/
def registerCalls (es : List Event) : List RegisterPayload :=
  es.filterMap fun e =>
    match e with
    | .registerCall p => some p
    | _ => none

/-- The navigation targets occurring in an event list. -/
def navTargets (es : List Event) : List String :=
  es.filterMap fun e =>
    match e with
    | .navigate p => some p
    | _ => none

/-- The component state an event list can affect: the form values and
the `isLoading` flag (`useState(false)`, so initially `false`). -/
structure FormState where
  values : RegistrationInput
  isLoading : Bool
deriving DecidableEq, Repr

def initialIsLoading : Bool := false

/-- One event acting on the component state. Toasts, the external
register call and navigation do not write the form values or the flag;
no event in `onSubmit` writes the form values. -/
def applyEvent (s : FormState) : Event → FormState
  | .setLoading b => { s with isLoading := b }
  | _ => s

def runEvents (s : FormState) (es : List Event) : FormState :=
  es.foldl applyEvent s

/-! ## The OAuth callback

`OAuthCallback`'s mount effect runs `handleRedirectCallback()` once;
on resolution it navigates to `/dashboard` with `replace: true`, on
rejection to `/sign-in`, also with `replace: true`; there is no retry. -/

inductive OAuthEvent where
  | redirectCallback
  | navigate (path : String) (replace : Bool)
deriving DecidableEq, Repr

def oauthCallbackRun (callbackSucceeds : Bool) : List OAuthEvent :=
  [OAuthEvent.redirectCallback] ++
  (if callbackSucceeds then [OAuthEvent.navigate "/dashboard" true]
   else [OAuthEvent.navigate "/sign-in" true])

def oauthCallbackCalls (es : List OAuthEvent) : Nat :=
  (es.filter fun e =>
    match e with
    | .redirectCallback => true
    | _ => false).length

end RegisterForm

namespace Settings

/-- An entry of the activity log. -/
structure LogEntry where
  action : String
  timestamp : String
deriving DecidableEq, Repr

/-- A toast notification: its title key and whether it uses the
destructive variant. -/
structure Toast where
  title : String
  destructive : Bool
deriving DecidableEq, Repr

/-- The local state of the `Settings` component: every `useState` piece
of the component, in source order. -/
structure SettingsState where
  companyName : String
  email : String
  phone : String
  website : String
  address : String
  city : String
  state : String
  zipCode : String
  description : String
  tags : List String
  newTag : String
  activityLog : List LogEntry
  targetMarket : String
  brandValues : String
  usp : String
  productCategories : List String
  newCategory : String
  emailNotifications : Bool
  messageNotifications : Bool
  partnershipNotifications : Bool
  marketingNotifications : Bool
  currentPassword : String
  newPassword : String
  confirmPassword : String
  twoFactorEnabled : Bool
  isLoading : Bool
  activeTab : String
  language : String
  theme : String
  autoSave : Bool
deriving DecidableEq, Repr

/-- The initial state, from the `useState` defaults (with the user
context absent, so the `user?.field || default` fallbacks apply). -/
def initialSettings : SettingsState where
  companyName := "Eco Foods"
  email := "contact@ecofoods.com"
  phone := "+1 (555) 987-6543"
  website := "https://www.ecofoods.com"
  address := "456 Brand Avenue"
  city := "Marketing City"
  state := "NY"
  zipCode := "10001"
  description := "Eco Foods is a leading brand of sustainable and healthy food products, committed to quality and environmental responsibility."
  tags := ["Organic", "Eco-friendly", "Health", "Sustainable"]
  newTag := ""
  activityLog :=
    [⟨"Profile updated", "2023-10-15 09:15 AM"⟩,
     ⟨"New product added", "2023-09-22 02:30 PM"⟩,
     ⟨"Brand guidelines updated", "2023-09-05 11:25 AM"⟩]
  targetMarket := "Health-conscious consumers, 25-45 years"
  brandValues := "Sustainability, Health, Quality, Transparency"
  usp := "Sustainable packaging with organic ingredients"
  productCategories := ["Breakfast Foods", "Snacks", "Beverages", "Condiments"]
  newCategory := ""
  emailNotifications := true
  messageNotifications := true
  partnershipNotifications := true
  marketingNotifications := false
  currentPassword := ""
  newPassword := ""
  confirmPassword := ""
  twoFactorEnabled := false
  isLoading := false
  activeTab := "general"
  language := "en"
  theme := "light"
  autoSave := true

/-- JavaScript's `String.prototype.trim`: strip whitespace from both
ends of the string (the inputs of interest use ASCII whitespace). -/
def isJSWhitespace (c : Char) : Bool :=
  c == ' ' || c == '\t' || c == '\n' || c == '\r' ||
    c == Char.ofNat 11 || c == Char.ofNat 12

def jsTrim (s : String) : String :=
  String.mk
    (((s.toList.dropWhile isJSWhitespace).reverse.dropWhile isJSWhitespace).reverse)

/-- `addToActivityLog(action)`: a new entry, stamped with the current
time (supplied here by the environment), is put in front of the
existing log. -/
def addToActivityLog (log : List LogEntry) (action : String) (timestamp : String) :
    List LogEntry :=
  ⟨action, timestamp⟩ :: log

/-- `handleAddTag`: when the trimmed new tag is non-empty (JS
truthiness of the trimmed string) and not already in `tags` (the
case-sensitive `includes` check), it is appended, the input is cleared
and the addition is logged; otherwise nothing happens and no error is
raised (the handler has no failure path). -/
def handleAddTag (s : SettingsState) (timestamp : String) : SettingsState :=
  if jsTrim s.newTag ≠ "" ∧ s.tags.contains (jsTrim s.newTag) = false then
    { s with
      tags := s.tags ++ [jsTrim s.newTag]
      newTag := ""
      activityLog :=
        addToActivityLog s.activityLog ("added-new-tag" ++ ": " ++ jsTrim s.newTag) timestamp }
  else s

/-- `handleAddCategory`: same policy as `handleAddTag`, over
`productCategories`. -/
def handleAddCategory (s : SettingsState) (timestamp : String) : SettingsState :=
  if jsTrim s.newCategory ≠ "" ∧ s.productCategories.contains (jsTrim s.newCategory) = false then
    { s with
      productCategories := s.productCategories ++ [jsTrim s.newCategory]
      newCategory := ""
      activityLog :=
        addToActivityLog s.activityLog
          ("added-new-product-category" ++ ": " ++ jsTrim s.newCategory) timestamp }
  else s

/-- The visible trace of one save handler invocation. `afterStart` is
the state when the handler's synchronous part has run (the in-flight
state while the simulated call is pending); `scheduled` says whether
the `setTimeout` persistence body was queued; `afterComplete` and
`completeToasts` describe the timeout body firing (when nothing was
scheduled they equal `afterStart` and `[]`). -/
structure SaveRun where
  afterStart : SettingsState
  startToasts : List Toast
  scheduled : Bool
  afterComplete : SettingsState
  completeToasts : List Toast
deriving DecidableEq, Repr

/-- `handleSaveGeneral`: set busy; the timeout body clears busy, toasts
`settings-updated` and logs `updated-general-settings`. -/
def handleSaveGeneral (s : SettingsState) (timestamp : String) : SaveRun :=
  let s1 := { s with isLoading := true }
  { afterStart := s1
    startToasts := []
    scheduled := true
    afterComplete :=
      { s1 with
        isLoading := false
        activityLog := addToActivityLog s1.activityLog "updated-general-settings" timestamp }
    completeToasts := [⟨"settings-updated", false⟩] }

/-- `handleSaveBrand`: set busy; the timeout body clears busy, toasts
`brand-details-updated` and logs `updated-brand-details`. -/
def handleSaveBrand (s : SettingsState) (timestamp : String) : SaveRun :=
  let s1 := { s with isLoading := true }
  { afterStart := s1
    startToasts := []
    scheduled := true
    afterComplete :=
      { s1 with
        isLoading := false
        activityLog := addToActivityLog s1.activityLog "updated-brand-details" timestamp }
    completeToasts := [⟨"brand-details-updated", false⟩] }

/-- `handleSaveNotifications`: set busy; the timeout body clears busy
and toasts `notification-preferences-updated` — it does not touch the
activity log. -/
def handleSaveNotifications (s : SettingsState) : SaveRun :=
  let s1 := { s with isLoading := true }
  { afterStart := s1
    startToasts := []
    scheduled := true
    afterComplete := { s1 with isLoading := false }
    completeToasts := [⟨"notification-preferences-updated", false⟩] }

/-- `handleSaveSecurity`: set busy; when a new password was supplied
(non-empty, by JS truthiness) and it differs from its confirmation,
clear busy, toast `passwords-dont-match` (destructive) and return
before the timeout is scheduled; otherwise the timeout body clears busy
and toasts `security-settings-saved`. It does not touch the activity
log. -/
def handleSaveSecurity (s : SettingsState) : SaveRun :=
  let s1 := { s with isLoading := true }
  if s.newPassword ≠ "" ∧ s.newPassword ≠ s.confirmPassword then
    { afterStart := { s1 with isLoading := false }
      startToasts := [⟨"passwords-dont-match", true⟩]
      scheduled := false
      afterComplete := { s1 with isLoading := false }
      completeToasts := [] }
  else
    { afterStart := s1
      startToasts := []
      scheduled := true
      afterComplete := { s1 with isLoading := false }
      completeToasts := [⟨"security-settings-saved", false⟩] }

/-- `handleSaveBranding`: set busy; the timeout body clears busy and
toasts `brand-settings-updated` — it does not touch the activity
log. -/
def handleSaveBranding (s : SettingsState) : SaveRun :=
  let s1 := { s with isLoading := true }
  { afterStart := s1
    startToasts := []
    scheduled := true
    afterComplete := { s1 with isLoading := false }
    completeToasts := [⟨"brand-settings-updated", false⟩] }

/-- The busy indicator the general tab's save button reads
(`disabled={isLoading}`). -/
def generalSectionBusy (s : SettingsState) : Bool := s.isLoading

/-- The busy indicator the security tab's save button reads
(`disabled={isLoading}` — the same state cell). -/
def securitySectionBusy (s : SettingsState) : Bool := s.isLoading

/-- Erase exactly the pieces of state a save handler is permitted to
write (the shared busy flag and the activity log); two states equal
after erasure agree on every form field of every section. -/
def eraseSaveTouched (s : SettingsState) : SettingsState :=
  { s with isLoading := false, activityLog := [] }

end Settings

namespace RegisterForm

/-- Concrete inputs used to instantiate the theorems below. -/
def mismatchInput : RegistrationInput :=
  ⟨"Jane Doe", "jane@x.com", "abcd1234", "abcd12345", "brand"⟩

def shortNameInput : RegistrationInput :=
  ⟨"J", "jane@x.com", "abcd1234", "abcd1234", "brand"⟩

/-- C1: whenever `password ≠ confirmPassword` validation fails; when
every field-level rule passes the failure is exactly the
`passwords-do-not-match` message attached to the `confirmPassword`
field (not to the form globally); and when some field-level rule fails
the result consists of the field-level issues alone, i.e. the
cross-field rule is evaluated only after all field-level rules pass. -/
theorem registration_cross_field_rule (input : RegistrationInput)
    (hne : input.password ≠ input.confirmPassword) :
    (validate input).isOk = false ∧
    (fieldIssues input = [] →
      validate input = .error [⟨"confirmPassword", passwordsDoNotMatchMsg⟩]) ∧
    (fieldIssues input ≠ [] → validate input = .error (fieldIssues input)) := by
  cases h : fieldIssues input with
  | nil =>
    refine ⟨?_, fun _ => ?_, fun hc => absurd rfl hc⟩ <;>
      simp [validate, h, hne, ValidationResult.isOk]
  | cons e es =>
    refine ⟨?_, fun hc => absurd hc (List.cons_ne_nil e es), fun _ => ?_⟩ <;>
      simp [validate, h, ValidationResult.isOk]

/-- Witness for C1 at a concrete input whose fields are all
individually valid but whose passwords differ. -/
theorem registration_cross_field_rule_witness :
    mismatchInput.password ≠ mismatchInput.confirmPassword ∧
    validate mismatchInput =
      .error [⟨"confirmPassword", passwordsDoNotMatchMsg⟩] :=
  ⟨by decide, (registration_cross_field_rule mismatchInput (by decide)).2.1 (by decide)⟩

/-- C2: the submit action runs only when validation succeeds — the
submission pipeline performs `onSubmit`'s effects exactly when
`validate` returns ok, and for any input whose name is shorter than 2
characters validation fails with the name-length error and the pipeline
performs nothing, so `register` is never invoked. -/
theorem submit_gated_by_validation (input : RegistrationInput) (outcome : Bool) :
    handleSubmit input outcome =
      (if (validate input).isOk = true then onSubmit input outcome else []) ∧
    (input.name.length < 2 →
      (⟨"name", nameMinMsg⟩ : FieldError) ∈ (validate input).errors ∧
      (validate input).isOk = false ∧
      handleSubmit input outcome = [] ∧
      registerCalls (handleSubmit input outcome) = []) := by
  have heq : handleSubmit input outcome =
      (if (validate input).isOk = true then onSubmit input outcome else []) := by
    cases h : fieldIssues input with
    | nil =>
      by_cases hp : input.password = input.confirmPassword <;>
        simp [handleSubmit, validate, h, hp, ValidationResult.isOk]
    | cons e es =>
      simp [handleSubmit, validate, h, ValidationResult.isOk]
  refine ⟨heq, fun hlen => ?_⟩
  have hnot : ¬ (2 ≤ input.name.length) := by omega
  have hfi : fieldIssues input =
      ⟨"name", nameMinMsg⟩ ::
        ((if validEmail input.email then [] else [⟨"email", invalidEmailMsg⟩]) ++
         (if 8 ≤ input.password.length then [] else [⟨"password", passwordMinMsg⟩]) ++
         (if 8 ≤ input.confirmPassword.length then []
          else [⟨"confirmPassword", passwordMinMsg⟩]) ++
         (if roleValues.contains input.role then [] else [⟨"role", roleRequiredMsg⟩])) := by
    simp [fieldIssues, hnot]
  have hv : validate input = .error (fieldIssues input) := by
    rw [validate, hfi]
  have hok : (validate input).isOk = false := by rw [hv]; rfl
  refine ⟨?_, hok, ?_, ?_⟩
  · rw [hv, hfi]; exact List.mem_cons_self _ _
  · rw [heq, hok]; simp
  · rw [heq, hok]; simp [registerCalls]

/-- Witness for C2 at a concrete input with a one-character name. -/
theorem submit_gated_by_validation_witness :
    (⟨"name", nameMinMsg⟩ : FieldError) ∈ (validate shortNameInput).errors ∧
    handleSubmit shortNameInput true = [] :=
  ⟨((submit_gated_by_validation shortNameInput true).2 (by decide)).1,
   ((submit_gated_by_validation shortNameInput true).2 (by decide)).2.2.1⟩

/-- C3: the busy flag starts out false (`useState(false)`); in every
submit the very first effect sets it true and the next effect is the
external `register` call; the final effect — on the success branch and
on the failure branch alike — is the `finally` cleanup setting it back
to false, so after the run the component's flag is false whatever it
was before. -/
theorem busy_flag_lifecycle :
    initialIsLoading = false ∧
    ∀ (data : RegistrationInput) (outcome : Bool),
      (onSubmit data outcome).take 2 =
        [Event.setLoading true, Event.registerCall (payloadOf data)] ∧
      (onSubmit data outcome).getLast? = some (Event.setLoading false) ∧
      ∀ s : FormState, (runEvents s (onSubmit data outcome)).isLoading = false := by
  refine ⟨rfl, fun data outcome => ?_⟩
  cases outcome <;> exact ⟨rfl, rfl, fun s => rfl⟩

/-- C4: on success of the external call, `register` was called exactly
once, the success toast is emitted and the sole navigation target is
`/verify-email?email=` followed by the URL-encoded submitted email (for
`jane@x.com` that encoding is `jane%40x.com`); on failure, the failure
toast is emitted, no navigation occurs, and the events leave the form
values of the component state unchanged. -/
theorem submit_outcome_paths (data : RegistrationInput) :
    registerCalls (onSubmit data true) = [payloadOf data] ∧
    registerCalls (onSubmit data false) = [payloadOf data] ∧
    Event.toast verificationSentTitle false ∈ onSubmit data true ∧
    navTargets (onSubmit data true) =
      ["/verify-email?email=" ++ encodeURIComponent data.email] ∧
    Event.toast registrationFailedTitle true ∈ onSubmit data false ∧
    navTargets (onSubmit data false) = [] ∧
    (∀ s : FormState, (runEvents s (onSubmit data false)).values = s.values) ∧
    encodeURIComponent "jane@x.com" = "jane%40x.com" := by
  refine ⟨rfl, rfl, ?_, rfl, ?_, rfl, fun s => rfl, by decide⟩ <;>
    simp [onSubmit]

/-- C9: the OAuth callback's mount effect invokes the
handshake-completion call exactly once; on success it navigates to
`/dashboard` replacing history, on failure to `/sign-in` replacing
history, with no second completion call in either trace. -/
theorem oauth_callback_behavior :
    oauthCallbackRun true =
      [OAuthEvent.redirectCallback, OAuthEvent.navigate "/dashboard" true] ∧
    oauthCallbackRun false =
      [OAuthEvent.redirectCallback, OAuthEvent.navigate "/sign-in" true] ∧
    ∀ outcome : Bool, oauthCallbackCalls (oauthCallbackRun outcome) = 1 := by
  refine ⟨rfl, rfl, fun outcome => ?_⟩
  cases outcome <;> rfl

end RegisterForm


namespace Settings

/-- Whatever branch the security save takes, its completion state is
the input state with the busy flag cleared. -/
theorem handleSaveSecurity_afterComplete (s : SettingsState) :
    (handleSaveSecurity s).afterComplete = { s with isLoading := false } := by
  unfold handleSaveSecurity
  split <;> rfl

/-- C7: when a new password is supplied and differs from its
confirmation, the security save emits the destructive
`passwords-dont-match` toast and returns before the persistence call is
scheduled; the resulting state — in flight and final alike — is the
prior state with only the busy flag forced to false, so all prior
security settings are untouched. -/
theorem security_mismatch_aborts (s : SettingsState)
    (h1 : s.newPassword ≠ "") (h2 : s.newPassword ≠ s.confirmPassword) :
    handleSaveSecurity s =
      { afterStart := { s with isLoading := false }
        startToasts := [⟨"passwords-dont-match", true⟩]
        scheduled := false
        afterComplete := { s with isLoading := false }
        completeToasts := [] } := by
  unfold handleSaveSecurity
  rw [if_pos ⟨h1, h2⟩]

/-- Witness for C7 with `newPassword = "x"`, `confirmPassword = "y"`. -/
theorem security_mismatch_aborts_witness :
    (handleSaveSecurity
      { initialSettings with newPassword := "x", confirmPassword := "y" }).scheduled
        = false ∧
    (handleSaveSecurity
      { initialSettings with newPassword := "x", confirmPassword := "y" }).startToasts
        = [⟨"passwords-dont-match", true⟩] ∧
    (handleSaveSecurity
      { initialSettings with newPassword := "x", confirmPassword := "y" }).afterComplete
        = { initialSettings with newPassword := "x", confirmPassword := "y" } := by
  rw [security_mismatch_aborts
    { initialSettings with newPassword := "x", confirmPassword := "y" }
    (by decide) (by decide)]
  exact ⟨rfl, rfl, rfl⟩

/-- C10: when `newPassword` is the empty string the password-equality
check is skipped — whatever `confirmPassword` and `currentPassword`
hold, the save schedules the persistence call, emits no abort toast,
and its completion clears the busy flag and reports the
`security-settings-saved` success toast. -/
theorem security_empty_newpassword_proceeds (s : SettingsState)
    (h : s.newPassword = "") :
    handleSaveSecurity s =
      { afterStart := { s with isLoading := true }
        startToasts := []
        scheduled := true
        afterComplete := { s with isLoading := false }
        completeToasts := [⟨"security-settings-saved", false⟩] } := by
  unfold handleSaveSecurity
  rw [if_neg]
  exact fun hc => hc.1 h

/-- Witness for C10 with empty `newPassword` but disagreeing
`confirmPassword` and `currentPassword`. -/
theorem security_empty_newpassword_proceeds_witness :
    (handleSaveSecurity
      { initialSettings with confirmPassword := "y", currentPassword := "z" }).scheduled
        = true ∧
    (handleSaveSecurity
      { initialSettings with confirmPassword := "y", currentPassword := "z" }).completeToasts
        = [⟨"security-settings-saved", false⟩] := by
  rw [security_empty_newpassword_proceeds
    { initialSettings with confirmPassword := "y", currentPassword := "z" } (by decide)]
  exact ⟨rfl, rfl⟩

/-- C8: adding a tag whose trimmed value is empty or already present in
the tag list (case-sensitive exact match) leaves the whole component
state unchanged — no list change, no log entry, and the handler has no
error path — and the same holds of product categories. -/
theorem add_tag_category_duplicate_noop (s : SettingsState) (timestamp : String) :
    (jsTrim s.newTag = "" ∨ s.tags.contains (jsTrim s.newTag) = true →
      handleAddTag s timestamp = s) ∧
    (jsTrim s.newCategory = "" ∨ s.productCategories.contains (jsTrim s.newCategory) = true →
      handleAddCategory s timestamp = s) := by
  constructor
  · intro h
    unfold handleAddTag
    rw [if_neg]
    rintro ⟨h1, h2⟩
    rcases h with h | h
    · exact h1 h
    · rw [h] at h2; cases h2
  · intro h
    unfold handleAddCategory
    rw [if_neg]
    rintro ⟨h1, h2⟩
    rcases h with h | h
    · exact h1 h
    · rw [h] at h2; cases h2

/-- Witness for C8: adding the tag `"Organic"`, already in the initial
tag list, changes nothing. -/
theorem add_tag_category_duplicate_noop_witness :
    handleAddTag { initialSettings with newTag := "Organic" } "2024-01-01" =
      { initialSettings with newTag := "Organic" } ∧
    (handleAddTag { initialSettings with newTag := "Organic" } "2024-01-01").tags =
      initialSettings.tags := by
  have h :=
    (add_tag_category_duplicate_noop
      { initialSettings with newTag := "Organic" } "2024-01-01").1
      (Or.inr (by decide))
  exact ⟨h, by rw [h]⟩

/-- C5 counterexample: the claim asserts that in-flight saves of
distinct sections touch disjoint state, including their busy
indicators. In the component all save buttons read the single
`isLoading` cell, so starting the security section's save flips the
general section's busy indicator (and vice versa): at the initial
state both indicators are false, yet each section's in-flight save
makes the other section's indicator true. -/
theorem settings_busy_shared_counterexample :
    generalSectionBusy initialSettings = false ∧
    securitySectionBusy initialSettings = false ∧
    generalSectionBusy (handleSaveSecurity initialSettings).afterStart = true ∧
    securitySectionBusy (handleSaveGeneral initialSettings "2024-01-01").afterStart
      = true := by
  refine ⟨rfl, rfl, ?_, rfl⟩
  unfold handleSaveSecurity generalSectionBusy
  rw [if_neg (fun hc => hc.1 rfl)]

/-- C5 amended: saving one section never validates or submits another
section's fields — every save handler leaves every form field of every
section unchanged, writing only the busy flag and the activity log, and
the security save's validation outcome depends only on the security
section's own `newPassword` and `confirmPassword` — but the sections'
busy indicators are not disjoint: every section reads the one shared
`isLoading` flag. -/
theorem settings_section_independence_amended :
    (∀ s : SettingsState, generalSectionBusy s = securitySectionBusy s) ∧
    (∀ (s : SettingsState) (ts : String),
      eraseSaveTouched (handleSaveGeneral s ts).afterComplete = eraseSaveTouched s ∧
      eraseSaveTouched (handleSaveBrand s ts).afterComplete = eraseSaveTouched s ∧
      eraseSaveTouched (handleSaveNotifications s).afterComplete = eraseSaveTouched s ∧
      eraseSaveTouched (handleSaveSecurity s).afterComplete = eraseSaveTouched s ∧
      eraseSaveTouched (handleSaveBranding s).afterComplete = eraseSaveTouched s) ∧
    (∀ s t : SettingsState,
      s.newPassword = t.newPassword → s.confirmPassword = t.confirmPassword →
      (handleSaveSecurity s).scheduled = (handleSaveSecurity t).scheduled ∧
      (handleSaveSecurity s).startToasts = (handleSaveSecurity t).startToasts) := by
  refine ⟨fun s => rfl, fun s ts => ?_, fun s t h1 h2 => ?_⟩
  · refine ⟨rfl, rfl, rfl, ?_, rfl⟩
    rw [handleSaveSecurity_afterComplete]
    rfl
  · unfold handleSaveSecurity
    rw [h1, h2]
    split <;> exact ⟨rfl, rfl⟩

/-- Witness for C5's amended theorem: a general save leaves every
non-busy, non-log piece of the initial state intact, and the security
validation ignores a change to the general section's `companyName`. -/
theorem settings_section_independence_witness :
    eraseSaveTouched (handleSaveGeneral initialSettings "2024-01-01").afterComplete =
      eraseSaveTouched initialSettings ∧
    (handleSaveSecurity initialSettings).scheduled =
      (handleSaveSecurity { initialSettings with companyName := "Other" }).scheduled :=
  ⟨(settings_section_independence_amended.2.1 initialSettings "2024-01-01").1,
   (settings_section_independence_amended.2.2 initialSettings
      { initialSettings with companyName := "Other" } rfl rfl).1⟩

/-- C6 counterexample: the claim asserts that every section's save
appends an entry to the activity log on completion. The notifications
save completes (its persistence call is scheduled and its completion
emits a toast) yet leaves the activity log exactly as it was. -/
theorem settings_activity_log_counterexample :
    (handleSaveNotifications initialSettings).scheduled = true ∧
    (handleSaveNotifications initialSettings).completeToasts =
      [⟨"notification-preferences-updated", false⟩] ∧
    (handleSaveNotifications initialSettings).afterComplete.activityLog =
      initialSettings.activityLog :=
  ⟨rfl, rfl, rfl⟩

/-- C6 amended: every save action's completion clears the busy flag and
emits a notification (for the security save, whenever its persistence
call was scheduled at all); the general-settings and brand-details
saves additionally prepend one human-readable entry to the activity
log, keeping every existing entry in order (the log is prepend-only,
most-recent-first); the notifications, security and branding saves
leave the activity log untouched. -/
theorem settings_save_completion_amended (s : SettingsState) (ts : String) :
    ((handleSaveGeneral s ts).afterComplete.isLoading = false ∧
     (handleSaveGeneral s ts).completeToasts = [⟨"settings-updated", false⟩] ∧
     (handleSaveGeneral s ts).afterComplete.activityLog =
       ⟨"updated-general-settings", ts⟩ :: s.activityLog) ∧
    ((handleSaveBrand s ts).afterComplete.isLoading = false ∧
     (handleSaveBrand s ts).completeToasts = [⟨"brand-details-updated", false⟩] ∧
     (handleSaveBrand s ts).afterComplete.activityLog =
       ⟨"updated-brand-details", ts⟩ :: s.activityLog) ∧
    ((handleSaveNotifications s).afterComplete.isLoading = false ∧
     (handleSaveNotifications s).completeToasts =
       [⟨"notification-preferences-updated", false⟩] ∧
     (handleSaveNotifications s).afterComplete.activityLog = s.activityLog) ∧
    ((handleSaveSecurity s).afterComplete.isLoading = false ∧
     ((handleSaveSecurity s).scheduled = true →
       (handleSaveSecurity s).completeToasts = [⟨"security-settings-saved", false⟩]) ∧
     (handleSaveSecurity s).afterComplete.activityLog = s.activityLog) ∧
    ((handleSaveBranding s).afterComplete.isLoading = false ∧
     (handleSaveBranding s).completeToasts = [⟨"brand-settings-updated", false⟩] ∧
     (handleSaveBranding s).afterComplete.activityLog = s.activityLog) ∧
    (∀ (log : List LogEntry) (action timestamp : String),
      addToActivityLog log action timestamp = ⟨action, timestamp⟩ :: log) := by
  refine ⟨⟨rfl, rfl, rfl⟩, ⟨rfl, rfl, rfl⟩, ⟨rfl, rfl, rfl⟩, ⟨?_, ?_, ?_⟩,
    ⟨rfl, rfl, rfl⟩, fun log action timestamp => rfl⟩
  · rw [handleSaveSecurity_afterComplete]
  · unfold handleSaveSecurity
    split
    · intro hc; cases hc
    · intro _; rfl
  · rw [handleSaveSecurity_afterComplete]

/-- Witness for C6's amended theorem at the initial state: the
notifications save clears busy without logging and the security save's
scheduled completion reports success. -/
theorem settings_save_completion_witness :
    (handleSaveNotifications initialSettings).afterComplete.isLoading = false ∧
    (handleSaveSecurity initialSettings).completeToasts =
      [⟨"security-settings-saved", false⟩] := by
  have h := settings_save_completion_amended initialSettings "2024-01-01"
  exact ⟨h.2.2.1.1, h.2.2.2.1.2.1 (by decide)⟩

end Settings
